import Mathlib

/-!
Formal model of the netlink interface layer of dhcpcd (src/if-linux.c).

The file shallowly embeds the functions of if-linux.c as executable Lean
definitions: the attribute codec (add_attr_l, add_attr_32), the
address/route request builders (if_address, if_route), the sequence-number
assignment of send_netlink, the acknowledgment decoder (err_netlink), the
link-event classifier (link_netlink) and the receive pump (get_netlink,
manage_link).  Machine integers are modelled as Nat/Int with explicit
reductions modulo 2^16, 2^32 and 2^64 where C overflow or casts matter.
-/

namespace IfLinux

/-- NLMSG_ALIGN of linux/netlink.h: round a length up to a 4-byte boundary. -/
def nlmsgAlign (n : Nat) : Nat := (n + 3) / 4 * 4

/-- RTA_ALIGN of linux/rtnetlink.h: round a length up to a 4-byte boundary. -/
def rtaAlign (n : Nat) : Nat := (n + 3) / 4 * 4

/-- NLMSG_HDRLEN: aligned size of struct nlmsghdr (16 bytes on Linux). -/
def NLMSG_HDRLEN : Nat := 16

/-- NLMSG_LENGTH(len): payload length plus the message header length. -/
def nlmsgLength (n : Nat) : Nat := n + NLMSG_HDRLEN

/-- RTA_LENGTH(alen): attribute payload length plus the 4-byte rtattr header. -/
def rtaLength (alen : Nat) : Nat := 4 + alen

/-- Message type code NLMSG_ERROR. -/
def NLMSG_ERROR : Nat := 2

/-- Message type code RTM_NEWLINK. -/
def RTM_NEWLINK : Nat := 16

/-- Message type code RTM_DELLINK. -/
def RTM_DELLINK : Nat := 17

/-- Message type code RTM_NEWADDR. -/
def RTM_NEWADDR : Nat := 20

/-- Message type code RTM_DELADDR. -/
def RTM_DELADDR : Nat := 21

/-- Message type code RTM_NEWROUTE. -/
def RTM_NEWROUTE : Nat := 24

/-- Message type code RTM_DELROUTE. -/
def RTM_DELROUTE : Nat := 25

/-- Link attribute type IFLA_IFNAME. -/
def IFLA_IFNAME : Nat := 3

/-- Link attribute type IFLA_WIRELESS. -/
def IFLA_WIRELESS : Nat := 11

/-- Interface flag bit IFF_LOOPBACK. -/
def IFF_LOOPBACK : Nat := 8

/-- IF_NAMESIZE of net/if.h. -/
def IF_NAMESIZE : Nat := 16

/-- Address attribute type IFA_LOCAL. -/
def IFA_LOCAL : Nat := 2

/-- Address attribute type IFA_LABEL. -/
def IFA_LABEL : Nat := 3

/-- Address attribute type IFA_BROADCAST. -/
def IFA_BROADCAST : Nat := 4

/-- Route attribute type RTA_DST. -/
def RTA_DST : Nat := 1

/-- Route attribute type RTA_OIF. -/
def RTA_OIF : Nat := 4

/-- Route attribute type RTA_GATEWAY. -/
def RTA_GATEWAY : Nat := 5

/-- Route attribute type RTA_PRIORITY. -/
def RTA_PRIORITY : Nat := 6

/-- Route attribute type RTA_PREFSRC. -/
def RTA_PREFSRC : Nat := 7

/-- Netlink flag NLM_F_REQUEST. -/
def NLM_F_REQUEST : Nat := 1

/-- Netlink flag NLM_F_ACK. -/
def NLM_F_ACK : Nat := 4

/-- Netlink flag NLM_F_REPLACE. -/
def NLM_F_REPLACE : Nat := 256

/-- Netlink flag NLM_F_EXCL. -/
def NLM_F_EXCL : Nat := 512

/-- Netlink flag NLM_F_CREATE. -/
def NLM_F_CREATE : Nat := 1024

/-- Route scope RT_SCOPE_UNIVERSE. -/
def RT_SCOPE_UNIVERSE : Nat := 0

/-- Route scope RT_SCOPE_LINK. -/
def RT_SCOPE_LINK : Nat := 253

/-- Route scope RT_SCOPE_NOWHERE. -/
def RT_SCOPE_NOWHERE : Nat := 255

/-- Route protocol RTPROT_UNSPEC (the zero-initialised value). -/
def RTPROT_UNSPEC : Nat := 0

/-- Route protocol RTPROT_KERNEL. -/
def RTPROT_KERNEL : Nat := 2

/-- Route protocol RTPROT_BOOT. -/
def RTPROT_BOOT : Nat := 3

/-- Route type RTN_UNSPEC (the zero-initialised value). -/
def RTN_UNSPEC : Nat := 0

/-- Route type RTN_UNICAST. -/
def RTN_UNICAST : Nat := 1

/-- Routing table id RT_TABLE_MAIN. -/
def RT_TABLE_MAIN : Nat := 254

/-- Address family AF_INET. -/
def AF_INET : Nat := 2

/-- System error number EINTR. -/
def EINTR : Nat := 4

/-- System error number EAGAIN. -/
def EAGAIN : Nat := 11

/-- System error number EACCES. -/
def EACCES : Nat := 13

/-- System error number ENODEV. -/
def ENODEV : Nat := 19

/-- System error number EBADMSG. -/
def EBADMSG : Nat := 74

/-- System error number ENOBUFS. -/
def ENOBUFS : Nat := 105

/-- Little-endian encoding of a 16-bit value as two bytes. -/
def u16le (n : Nat) : List Nat := [n % 256, n / 256 % 256]

/-- Little-endian encoding of a 32-bit value as four bytes. -/
def u32le (n : Nat) : List Nat :=
  [n % 256, n / 256 % 256, n / 65536 % 256, n / 16777216 % 256]

/-- Overwrite the bytes of a buffer starting at a given offset with a list
of bytes; all other positions keep their previous content (memcpy). -/
def writeBytes (buf : Nat → Nat) (off : Nat) (data : List Nat) : Nat → Nat :=
  fun i => if off ≤ i ∧ i < off + data.length then data.getD (i - off) 0 else buf i

/-- Read a 16-bit little-endian value back out of the buffer. -/
def readU16 (buf : Nat → Nat) (off : Nat) : Nat :=
  buf off + 256 * buf (off + 1)

/-- Read a range of bytes back out of the buffer. -/
def readBytes (buf : Nat → Nat) (off len : Nat) : List Nat :=
  (List.range len).map (fun i => buf (off + i))

/-- The mutable part of a request message under construction: the running
nlmsg_len of the header and the bytes of the backing struct (both fixed
payload and trailing attribute buffer), indexed from the start of the
struct.  xzalloc gives the all-zero initial buffer. -/
structure NlBuf where
  nlmsg_len : Nat
  buf : Nat → Nat

/-- add_attr_l of if-linux.c: if the aligned attribute would push nlmsg_len
past maxlen, set ENOBUFS and mutate nothing; otherwise write the rtattr
header (rta_len, rta_type as 16-bit fields) and the value bytes at the
aligned tail and advance nlmsg_len by the aligned attribute length.
Returns the new buffer state and the errno it set, if any. -/
def add_attr_l (n : NlBuf) (maxlen : Nat) (typ : Nat) (data : List Nat) :
    NlBuf × Option Nat :=
  let len := rtaLength data.length
  if nlmsgAlign n.nlmsg_len + rtaAlign len > maxlen then
    (n, some ENOBUFS)
  else
    let off := nlmsgAlign n.nlmsg_len
    ({ nlmsg_len := off + rtaAlign len,
       buf := writeBytes n.buf off (u16le (len % 65536) ++ u16le (typ % 65536) ++ data) },
     none)

/-- add_attr_32 of if-linux.c: the 4-byte specialisation.  The capacity
check uses the unaligned length (which is already 4-byte aligned here). -/
def add_attr_32 (n : NlBuf) (maxlen : Nat) (typ : Nat) (data : Nat) :
    NlBuf × Option Nat :=
  let len := rtaLength 4
  if nlmsgAlign n.nlmsg_len + len > maxlen then
    (n, some ENOBUFS)
  else
    let off := nlmsgAlign n.nlmsg_len
    ({ nlmsg_len := off + len,
       buf := writeBytes n.buf off (u16le len ++ u16le (typ % 65536) ++ u32le (data % 4294967296)) },
     none)

/-- Modelled from the spec: inet_ntocidr lives in net.c, which is outside
src; the spec says only that the prefix length is derived from the netmask.
Modelled as the number of set bits of the 32-bit mask. -/
def inet_ntocidr (mask : Nat) : Nat :=
  ((List.range 32).filter (fun i => (mask >>> i) % 2 = 1)).length

/-- sizeof(struct nlma): nlmsghdr (16) + ifaddrmsg (8) + 64-byte buffer. -/
def NLMA_SIZE : Nat := 88

/-- sizeof(struct nlmr): nlmsghdr (16) + rtmsg (12) + 256-byte buffer. -/
def NLMR_SIZE : Nat := 284

/-- The fixed ifaddrmsg fields if_address fills in. -/
structure IfaddrMsg where
  ifa_family : Nat
  ifa_prefixed : Nat
  ifa_index : Nat

/-- Everything if_address hands to send_netlink: header type and flags, the
fixed payload, the attribute buffer, and the per-append error results
(which the C code discards). -/
structure AddrBuild where
  msgType : Nat
  flags : Nat
  ifa : IfaddrMsg
  nlbuf : NlBuf
  appendErrs : List (Option Nat)

/-- Outcome of an if_address call: early ENODEV return, or a built request
that is handed to send_netlink. -/
inductive IfAddrOut where
  | noDevice
  | request (b : AddrBuild)

/-- if_address of if-linux.c.  ifindex is the result of if_nametoindex
(0 meaning resolution failure), name the interface name bytes (without the
terminating NUL), address and broadcast the 32-bit in_addr values.  The
append results are recorded but, as in the source, never tested: the
request is built and sent regardless. -/
def if_address (ifindex : Nat) (name : List Nat)
    (address netmask broadcast : Nat) (action : Int) : IfAddrOut :=
  let typFlags : Nat × Nat :=
    if action ≥ 0 then (RTM_NEWADDR, NLM_F_REQUEST ||| NLM_F_CREATE ||| NLM_F_REPLACE)
    else (RTM_DELADDR, NLM_F_REQUEST)
  if ifindex = 0 then
    IfAddrOut.noDevice
  else
    let n0 : NlBuf := { nlmsg_len := nlmsgLength 8, buf := fun _ => 0 }
    let r1 := add_attr_l n0 NLMA_SIZE IFA_LABEL (name ++ [0])
    let r2 := add_attr_l r1.1 NLMA_SIZE IFA_LOCAL (u32le address)
    let final : NlBuf × List (Option Nat) :=
      if action ≥ 0 then
        let r3 := add_attr_l r2.1 NLMA_SIZE IFA_BROADCAST (u32le broadcast)
        (r3.1, [r1.2, r2.2, r3.2])
      else
        (r2.1, [r1.2, r2.2])
    IfAddrOut.request
      { msgType := typFlags.1
        flags := typFlags.2
        ifa := { ifa_family := AF_INET, ifa_prefixed := inet_ntocidr netmask,
                 ifa_index := ifindex }
        nlbuf := final.1
        appendErrs := final.2 }

/-- The fixed rtmsg fields if_route fills in (unset fields stay at the
xzalloc value 0). -/
structure RtMsg where
  rtm_family : Nat
  rtm_dst_len : Nat
  rtm_table : Nat
  rtm_protocol : Nat
  rtm_scope : Nat
  rtm_type : Nat
deriving DecidableEq, Repr

/-- Everything if_route hands to send_netlink. -/
structure RouteBuild where
  msgType : Nat
  flags : Nat
  rt : RtMsg
  nlbuf : NlBuf
  appendErrs : List (Option Nat)

/-- Outcome of an if_route call: early ENODEV return, or a built request
that is handed to send_netlink. -/
inductive IfRouteOut where
  | noDevice
  | request (b : RouteBuild)

/-- if_route of if-linux.c.  gateway = 0 is INADDR_ANY; ifaceAddr is
iface->addr.s_addr; metric is the already-converted 32-bit priority.
Append results are recorded but never tested, as in the source. -/
def if_route (ifindex : Nat) (destination netmask gateway ifaceAddr metric : Nat)
    (action : Int) : IfRouteOut :=
  if ifindex = 0 then
    IfRouteOut.noDevice
  else
    let typFlags : Nat × Nat :=
      if action = 0 then (RTM_NEWROUTE, NLM_F_REPLACE)
      else if action = 1 then (RTM_NEWROUTE, NLM_F_CREATE ||| NLM_F_EXCL)
      else (RTM_DELROUTE, 0)
    let flags1 := typFlags.2 ||| NLM_F_REQUEST
    let rt0 : RtMsg :=
      { rtm_family := AF_INET, rtm_dst_len := 0, rtm_table := RT_TABLE_MAIN,
        rtm_protocol := 0, rtm_scope := 0, rtm_type := 0 }
    let flagsRt : Nat × RtMsg :=
      if action = -1 ∨ action = -2 then
        (flags1, { rt0 with rtm_scope := RT_SCOPE_NOWHERE })
      else
        (flags1 ||| NLM_F_CREATE ||| NLM_F_EXCL,
         { rt0 with
             rtm_protocol := if action ≠ 0 then RTPROT_BOOT else RTPROT_KERNEL,
             rtm_scope := if gateway = 0 then RT_SCOPE_LINK else RT_SCOPE_UNIVERSE,
             rtm_type := RTN_UNICAST })
    let rt2 := { flagsRt.2 with rtm_dst_len := inet_ntocidr netmask }
    let n0 : NlBuf := { nlmsg_len := nlmsgLength 12, buf := fun _ => 0 }
    let r1 := add_attr_l n0 NLMR_SIZE RTA_DST (u32le destination)
    let src : NlBuf × List (Option Nat) :=
      if action ≠ 1 then
        let r := add_attr_l r1.1 NLMR_SIZE RTA_PREFSRC (u32le ifaceAddr)
        (r.1, [r.2])
      else (r1.1, [])
    let r3 := add_attr_l src.1 NLMR_SIZE RTA_GATEWAY (u32le gateway)
    let r4 := add_attr_32 r3.1 NLMR_SIZE RTA_OIF ifindex
    let r5 := add_attr_32 r4.1 NLMR_SIZE RTA_PRIORITY metric
    IfRouteOut.request
      { msgType := typFlags.1
        flags := flagsRt.1
        rt := rt2
        nlbuf := r5.1
        appendErrs := [r1.2] ++ src.2 ++ [r3.2, r4.2, r5.2] }

/-- True when the call reached the point of handing a request to
send_netlink (the source calls send_netlink unconditionally once the
interface index resolved). -/
def IfAddrOut.sendAttempted : IfAddrOut → Bool
  | IfAddrOut.noDevice => false
  | IfAddrOut.request _ => true

/-- True when some attribute append during the call failed. -/
def IfAddrOut.appendFailed : IfAddrOut → Bool
  | IfAddrOut.noDevice => false
  | IfAddrOut.request b => b.appendErrs.any Option.isSome

/-- True when the call reached the point of handing a request to
send_netlink. -/
def IfRouteOut.sendAttempted : IfRouteOut → Bool
  | IfRouteOut.noDevice => false
  | IfRouteOut.request _ => true

/-- True when some attribute append during the call failed. -/
def IfRouteOut.appendFailed : IfRouteOut → Bool
  | IfRouteOut.noDevice => false
  | IfRouteOut.request b => b.appendErrs.any Option.isSome

/-- The rtmsg of a built route request, when one was built. -/
def IfRouteOut.rtOf : IfRouteOut → Option RtMsg
  | IfRouteOut.noDevice => none
  | IfRouteOut.request b => some b.rt

/-- The header message type of a built route request, when one was built. -/
def IfRouteOut.typeOf : IfRouteOut → Option Nat
  | IfRouteOut.noDevice => none
  | IfRouteOut.request b => some b.msgType

/-- Sequence-number assignment of send_netlink: seq is a static unsigned
(32-bit) counter; the request gets ++seq.  Returns the assigned value,
which is also the new counter state. -/
def send_netlink_seq (seq : Nat) : Nat := (seq + 1) % 4294967296

/-- Header mutation performed by send_netlink before the send: OR in
NLM_F_ACK and assign the incremented sequence counter. -/
def send_netlink_hdr (seq flags : Nat) : Nat × Nat :=
  (flags ||| NLM_F_ACK, send_netlink_seq seq)

/-- Two's-complement reinterpretation of a value as a 32-bit signed int. -/
def toInt32 (n : Nat) : Int :=
  let m := n % 4294967296
  if m < 2147483648 then (m : Int) else (m : Int) - 4294967296

/-- Reinterpretation of a signed value as a 64-bit size_t, as the C cast
(size_t)l performs. -/
def sizeTCast (i : Int) : Nat :=
  (i % 18446744073709551616).toNat

/-- The C expression `(int)(nlmsg_len - sizeof(struct nlmsghdr))`: the u32
header length is widened to u64, 16 is subtracted with u64 wraparound, and
the result is truncated to a signed 32-bit int. -/
def payloadLenC (nlmsg_len : Nat) : Int :=
  toInt32 ((nlmsg_len % 4294967296 + 18446744073709551616 - 16) % 18446744073709551616)

/-- An acknowledgment-side message as err_netlink reads it: header type and
length, and the nlmsgerr error field (meaningful when the payload is long
enough to hold a struct nlmsgerr). -/
structure ErrMsg where
  nlmsg_type : Nat
  nlmsg_len : Nat
  errCode : Int

/-- err_netlink of if-linux.c: non-error messages yield (0, no errno);
an error message whose payload is shorter than struct nlmsgerr (20 bytes)
yields (-1, EBADMSG); error code 0 yields the payload length; a nonzero
error code yields (-1, errno = negated code). -/
def err_netlink (m : ErrMsg) : Int × Option Int :=
  if m.nlmsg_type ≠ NLMSG_ERROR then (0, none)
  else
    let l := payloadLenC m.nlmsg_len
    if sizeTCast l < 20 then (-1, some (EBADMSG : Int))
    else if m.errCode = 0 then (l, none)
    else (-1, some (-m.errCode))

/-- A decoded route attribute as the RTA_OK iteration of link_netlink
visits it: the rta_type tag and the value bytes. -/
structure RtAttr where
  rta_type : Nat
  rta_data : List Nat

/-- The two ifinfomsg fields link_netlink reads (32-bit values). -/
structure IfInfoMsg where
  ifi_flags : Nat
  ifi_change : Nat

/-- A link-side message as link_netlink reads it: header type and length,
the fixed ifinfomsg payload, and the well-formed attribute records the
RTA_OK loop iterates over. -/
structure LinkMsg where
  nlmsg_type : Nat
  nlmsg_len : Nat
  ifi : IfInfoMsg
  attrs : List RtAttr

/-- strlcpy(ifn, RTA_DATA(rta), IF_NAMESIZE + 1): the copied name is the
bytes up to the first NUL, truncated to IF_NAMESIZE characters. -/
def strlcpyName (data : List Nat) : List Nat :=
  (data.takeWhile (fun b => b ≠ 0)).take IF_NAMESIZE

/-- The attribute scan loop of link_netlink: a wireless-extension
attribute on a link-added message with zero change mask aborts the whole
handler (returning none, meaning consumed with no dispatch); a name
attribute overwrites the captured name; other attributes are skipped. -/
def scanAttrs (t c : Nat) : List RtAttr → List Nat → Option (List Nat)
  | [], ifn => some ifn
  | a :: rest, ifn =>
    if a.rta_type = IFLA_WIRELESS then
      if t = RTM_NEWLINK ∧ c = 0 then none
      else scanAttrs t c rest ifn
    else if a.rta_type = IFLA_IFNAME then
      scanAttrs t c rest (strlcpyName a.rta_data)
    else
      scanAttrs t c rest ifn

/-- A classified link notification handed to a listener callback. -/
inductive LinkEvent where
  | carrier (name : List Nat)
  | added (name : List Nat)
  | removed (name : List Nat)
deriving DecidableEq, Repr

/-- Which of the three optional listener callbacks are registered
(a false field models a NULL callback pointer). -/
structure Listeners where
  hasCarrier : Bool
  hasAdd : Bool
  hasRemove : Bool

/-- link_netlink of if-linux.c: returns the callback result code together
with the list of listener invocations it performed. -/
def link_netlink (ls : Listeners) (m : LinkMsg) : Int × List LinkEvent :=
  if m.nlmsg_type ≠ RTM_NEWLINK ∧ m.nlmsg_type ≠ RTM_DELLINK then (0, [])
  else if sizeTCast (payloadLenC m.nlmsg_len) < 16 then (-1, [])
  else if m.ifi.ifi_flags &&& IFF_LOOPBACK ≠ 0 then (1, [])
  else
    match scanAttrs m.nlmsg_type m.ifi.ifi_change m.attrs [] with
    | none => (1, [])
    | some ifn =>
      if m.nlmsg_type = RTM_NEWLINK then
        if m.ifi.ifi_change = 4294967295 then
          (1, if ls.hasAdd then [LinkEvent.added ifn] else [])
        else
          (1, if ls.hasCarrier then [LinkEvent.carrier ifn] else [])
      else
        (1, if ls.hasRemove then [LinkEvent.removed ifn] else [])

/-- One recv(2) result seen by the pump: either a datagram already split
into its well-formed messages (the NLMSG_OK iteration), or a failure with
an errno. -/
inductive Recv (α : Type) where
  | msgs (ms : List α)
  | fail (errno : Nat)

/-- Result of running the callback over one datagram's messages: the
current r value, the listener events emitted so far, and whether a nonzero
callback result stopped the loop. -/
structure PumpStep (ε : Type) where
  code : Int
  events : List ε
  stopped : Bool

/-- The inner message loop of get_netlink: r is overwritten by each
callback result; a nonzero result stops the loop at once. -/
def runMsgs {α ε : Type} (cb : α → Int × List ε) : Int → List α → PumpStep ε
  | r, [] => { code := r, events := [], stopped := false }
  | _, m :: rest =>
    let p := cb m
    if p.1 ≠ 0 then { code := p.1, events := p.2, stopped := true }
    else
      let q := runMsgs cb p.1 rest
      { code := q.code, events := p.2 ++ q.events, stopped := q.stopped }

/-- get_netlink of if-linux.c over a finite trace of recv results, started
with r = -1.  EAGAIN returns success (0); EINTR retries; any other recv
failure exits returning the current r; a nonzero callback result exits
returning it.  A trace that does not drive the loop to an exit yields
none (the C loop would still be running). -/
def get_netlink {α ε : Type} (cb : α → Int × List ε) :
    Int → List (Recv α) → Option (Int × List ε)
  | _, [] => none
  | r, Recv.fail e :: rest =>
    if e = EAGAIN then some (0, [])
    else if e = EINTR then get_netlink cb r rest
    else some (r, [])
  | r, Recv.msgs ms :: rest =>
    let s := runMsgs cb r ms
    if s.stopped then some (s.code, s.events)
    else
      match get_netlink cb s.code rest with
      | some p => some (p.1, s.events ++ p.2)
      | none => none

/-- manage_link of if-linux.c: registers the three listener slots and runs
the pump with the link handler (initial r = -1). -/
def manage_link (ls : Listeners) (trace : List (Recv LinkMsg)) :
    Option (Int × List LinkEvent) :=
  get_netlink (link_netlink ls) (-1) trace

lemma payloadLenC_eq (L : Nat) (h16 : 16 ≤ L) (hlt : L < 2147483648) :
    payloadLenC L = (L : Int) - 16 := by
  unfold payloadLenC toInt32
  have h1 : L % 4294967296 = L := Nat.mod_eq_of_lt (by omega)
  rw [h1]
  have h2 : (L + 18446744073709551616 - 16) % 18446744073709551616 = L - 16 := by
    omega
  rw [h2]
  have h3 : (L - 16) % 4294967296 = L - 16 := Nat.mod_eq_of_lt (by omega)
  simp only [h3]
  rw [if_pos (by omega)]
  omega

lemma sizeTCast_sub16 (L : Nat) (h16 : 16 ≤ L) (hlt : L < 2147483648) :
    sizeTCast ((L : Int) - 16) = L - 16 := by
  unfold sizeTCast
  have h1 : (L : Int) - 16 = ((L - 16 : Nat) : Int) := by omega
  rw [h1]
  have h2 : ((L - 16 : Nat) : Int) % 18446744073709551616 = ((L - 16 : Nat) : Int) :=
    Int.emod_eq_of_lt (by omega) (by omega)
  rw [h2]
  exact Int.toNat_natCast _

lemma nlmsgAlign_of_aligned (n : Nat) (h : n % 4 = 0) : nlmsgAlign n = n := by
  unfold nlmsgAlign
  omega

lemma writeBytes_below (buf : Nat → Nat) (off : Nat) (data : List Nat) (i : Nat)
    (h : i < off) : writeBytes buf off data i = buf i := by
  unfold writeBytes
  rw [if_neg (by omega)]

lemma writeBytes_inside (buf : Nat → Nat) (off : Nat) (data : List Nat) (i : Nat)
    (h1 : off ≤ i) (h2 : i < off + data.length) :
    writeBytes buf off data i = data.getD (i - off) 0 := by
  unfold writeBytes
  rw [if_pos ⟨h1, h2⟩]

lemma getD_at1 (a b : Nat) (l : List Nat) : (a :: b :: l).getD 1 0 = b := rfl

lemma getD_at2 (a b c : Nat) (l : List Nat) : (a :: b :: c :: l).getD 2 0 = c := rfl

lemma getD_at3 (a b c d : Nat) (l : List Nat) : (a :: b :: c :: d :: l).getD 3 0 = d := rfl

lemma getD_skip4 (a b c d : Nat) (l : List Nat) (j : Nat) :
    (a :: b :: c :: d :: l).getD (4 + j) 0 = l.getD j 0 := by
  have h : 4 + j = j + 1 + 1 + 1 + 1 := by omega
  rw [h]
  rfl

lemma writeAttr_readback (buf : Nat → Nat) (off L T : Nat) (payload : List Nat)
    (hL : L < 65536) (hT : T < 65536) :
    readU16 (writeBytes buf off (u16le L ++ u16le T ++ payload)) off = L ∧
    readU16 (writeBytes buf off (u16le L ++ u16le T ++ payload)) (off + 2) = T ∧
    (∀ j, j < payload.length →
      writeBytes buf off (u16le L ++ u16le T ++ payload) (off + 4 + j)
        = payload.getD j 0) ∧
    (∀ i, i < off → writeBytes buf off (u16le L ++ u16le T ++ payload) i = buf i) := by
  have hlist : u16le L ++ u16le T ++ payload
      = L % 256 :: L / 256 % 256 :: T % 256 :: T / 256 % 256 :: payload := by
    simp [u16le]
  have hlen : (u16le L ++ u16le T ++ payload).length = 4 + payload.length := by
    rw [hlist]
    simp only [List.length_cons]
    omega
  refine ⟨?_, ?_, ?_, ?_⟩
  · unfold readU16
    rw [writeBytes_inside _ _ _ _ (Nat.le_refl off) (by rw [hlen]; omega),
        writeBytes_inside _ _ _ _ (by omega) (by rw [hlen]; omega)]
    rw [Nat.sub_self]
    have e1 : off + 1 - off = 1 := by omega
    rw [e1, hlist, List.getD_cons_zero, getD_at1]
    omega
  · unfold readU16
    rw [writeBytes_inside _ _ _ _ (by omega) (by rw [hlen]; omega),
        writeBytes_inside _ _ _ _ (by omega) (by rw [hlen]; omega)]
    have e2 : off + 2 - off = 2 := by omega
    have e3 : off + 2 + 1 - off = 3 := by omega
    rw [e2, e3, hlist, getD_at2, getD_at3]
    omega
  · intro j hj
    rw [writeBytes_inside _ _ _ _ (by omega) (by rw [hlen]; omega)]
    have e4 : off + 4 + j - off = 4 + j := by omega
    rw [e4, hlist, getD_skip4]
  · intro i hi
    exact writeBytes_below _ _ _ _ (by omega)

/-- The behaviour C7 ascribes to add_attr_l and add_attr_32 on a message
state n: overflow reports ENOBUFS with no mutation; success writes the
rta_len/rta_type header and the value at the tail, leaves the prior bytes
untouched and advances nlmsg_len by the aligned attribute length. -/
def AddAttrSpec (n : NlBuf) (maxlen typ : Nat) (data : List Nat) (w : Nat) : Prop :=
  (nlmsgAlign n.nlmsg_len + rtaAlign (rtaLength data.length) > maxlen →
     add_attr_l n maxlen typ data = (n, some ENOBUFS)) ∧
  (nlmsgAlign n.nlmsg_len + rtaAlign (rtaLength data.length) ≤ maxlen →
     (add_attr_l n maxlen typ data).2 = none ∧
     (add_attr_l n maxlen typ data).1.nlmsg_len
       = n.nlmsg_len + rtaAlign (rtaLength data.length) ∧
     readU16 (add_attr_l n maxlen typ data).1.buf n.nlmsg_len
       = rtaLength data.length ∧
     readU16 (add_attr_l n maxlen typ data).1.buf (n.nlmsg_len + 2) = typ ∧
     (∀ j, j < data.length →
       (add_attr_l n maxlen typ data).1.buf (n.nlmsg_len + 4 + j) = data.getD j 0) ∧
     (∀ i, i < n.nlmsg_len →
       (add_attr_l n maxlen typ data).1.buf i = n.buf i)) ∧
  (nlmsgAlign n.nlmsg_len + rtaLength 4 > maxlen →
     add_attr_32 n maxlen typ w = (n, some ENOBUFS)) ∧
  (nlmsgAlign n.nlmsg_len + rtaLength 4 ≤ maxlen →
     (add_attr_32 n maxlen typ w).2 = none ∧
     (add_attr_32 n maxlen typ w).1.nlmsg_len = n.nlmsg_len + rtaAlign (rtaLength 4) ∧
     readU16 (add_attr_32 n maxlen typ w).1.buf n.nlmsg_len = rtaLength 4 ∧
     readU16 (add_attr_32 n maxlen typ w).1.buf (n.nlmsg_len + 2) = typ ∧
     (∀ j, j < 4 →
       (add_attr_32 n maxlen typ w).1.buf (n.nlmsg_len + 4 + j)
         = (u32le (w % 4294967296)).getD j 0) ∧
     (∀ i, i < n.nlmsg_len →
       (add_attr_32 n maxlen typ w).1.buf i = n.buf i))

/-- C7: an attribute append whose aligned length would push the message past
capacity leaves the buffer's prior content and its logical length unchanged
and reports ENOBUFS; otherwise the type/length header and the value are
written at the 4-byte-aligned tail and the logical length advances by the
aligned attribute length.  Holds for add_attr_l and add_attr_32 alike. -/
theorem claim_c7 (n : NlBuf) (maxlen typ : Nat) (data : List Nat) (w : Nat)
    (hlen : rtaLength data.length < 65536) (htyp : typ < 65536)
    (h4 : n.nlmsg_len % 4 = 0) :
    AddAttrSpec n maxlen typ data w := by
  have ha : nlmsgAlign n.nlmsg_len = n.nlmsg_len := nlmsgAlign_of_aligned _ h4
  have hmod : rtaLength data.length % 65536 = rtaLength data.length :=
    Nat.mod_eq_of_lt hlen
  have htmod : typ % 65536 = typ := Nat.mod_eq_of_lt htyp
  have hrb := writeAttr_readback n.buf n.nlmsg_len (rtaLength data.length) typ
    data hlen htyp
  have hrb32 := writeAttr_readback n.buf n.nlmsg_len (rtaLength 4) typ
    (u32le (w % 4294967296)) (by decide) htyp
  refine ⟨?_, ?_, ?_, ?_⟩
  · intro h
    unfold add_attr_l
    rw [if_pos (by omega)]
  · intro h
    unfold add_attr_l
    rw [if_neg (by omega)]
    refine ⟨rfl, ?_, ?_, ?_, ?_, ?_⟩
    · show nlmsgAlign n.nlmsg_len + rtaAlign (rtaLength data.length)
          = n.nlmsg_len + rtaAlign (rtaLength data.length)
      rw [ha]
    · show readU16 (writeBytes n.buf (nlmsgAlign n.nlmsg_len)
          (u16le (rtaLength data.length % 65536) ++ u16le (typ % 65536) ++ data))
          n.nlmsg_len = rtaLength data.length
      rw [ha, hmod, htmod]
      exact hrb.1
    · show readU16 (writeBytes n.buf (nlmsgAlign n.nlmsg_len)
          (u16le (rtaLength data.length % 65536) ++ u16le (typ % 65536) ++ data))
          (n.nlmsg_len + 2) = typ
      rw [ha, hmod, htmod]
      exact hrb.2.1
    · intro j hj
      show writeBytes n.buf (nlmsgAlign n.nlmsg_len)
          (u16le (rtaLength data.length % 65536) ++ u16le (typ % 65536) ++ data)
          (n.nlmsg_len + 4 + j) = data.getD j 0
      rw [ha, hmod, htmod]
      exact hrb.2.2.1 j hj
    · intro i hi
      show writeBytes n.buf (nlmsgAlign n.nlmsg_len)
          (u16le (rtaLength data.length % 65536) ++ u16le (typ % 65536) ++ data) i
          = n.buf i
      rw [ha, hmod, htmod]
      exact hrb.2.2.2 i hi
  · intro h
    unfold add_attr_32
    rw [if_pos (by omega)]
  · intro h
    unfold add_attr_32
    rw [if_neg (by omega)]
    refine ⟨rfl, ?_, ?_, ?_, ?_, ?_⟩
    · show nlmsgAlign n.nlmsg_len + rtaLength 4 = n.nlmsg_len + rtaAlign (rtaLength 4)
      rw [ha]
      rfl
    · show readU16 (writeBytes n.buf (nlmsgAlign n.nlmsg_len)
          (u16le (rtaLength 4) ++ u16le (typ % 65536) ++ u32le (w % 4294967296)))
          n.nlmsg_len = rtaLength 4
      rw [ha, htmod]
      exact hrb32.1
    · show readU16 (writeBytes n.buf (nlmsgAlign n.nlmsg_len)
          (u16le (rtaLength 4) ++ u16le (typ % 65536) ++ u32le (w % 4294967296)))
          (n.nlmsg_len + 2) = typ
      rw [ha, htmod]
      exact hrb32.2.1
    · intro j hj
      show writeBytes n.buf (nlmsgAlign n.nlmsg_len)
          (u16le (rtaLength 4) ++ u16le (typ % 65536) ++ u32le (w % 4294967296))
          (n.nlmsg_len + 4 + j) = (u32le (w % 4294967296)).getD j 0
      rw [ha, htmod]
      exact hrb32.2.2.1 j
        (by simp only [u32le, List.length_cons, List.length_nil]; omega)
    · intro i hi
      show writeBytes n.buf (nlmsgAlign n.nlmsg_len)
          (u16le (rtaLength 4) ++ u16le (typ % 65536) ++ u32le (w % 4294967296)) i
          = n.buf i
      rw [ha, htmod]
      exact hrb32.2.2.2 i hi

/-- C7 witness: the theorem applied at a concrete message state with a
3-byte attribute of type 3 and a scalar attribute with value 7. -/
theorem claim_c7_witness :
    AddAttrSpec { nlmsg_len := 24, buf := fun _ => 0 } 88 3 [1, 2, 3] 7 :=
  claim_c7 { nlmsg_len := 24, buf := fun _ => 0 } 88 3 [1, 2, 3] 7
    (by decide) (by decide) (by decide)

/-- C1 counterexample: a call of if_address with a 60-character interface
name makes the IFA_LABEL append fail (ENOBUFS appears among the recorded
append results), yet the request is still handed to send_netlink, so a
request is sent in a call in which an attribute append failed. -/
theorem claim_c1_counterexample :
    (if_address 2 (List.replicate 60 97) 0 0 0 0).appendFailed = true ∧
    (if_address 2 (List.replicate 60 97) 0 0 0 0).sendAttempted = true := by
  exact ⟨by decide, by decide⟩

/-- C1 amended: an attribute append that would exceed capacity does report
ENOBUFS and performs no mutation, but if_address and if_route never examine
the append results: whenever interface-index resolution succeeds the
request is handed to send_netlink, whether or not an append failed. -/
theorem claim_c1_amended (ifindexA ifindexR : Nat) (name : List Nat)
    (address netmask broadcast destination netmaskR gateway ifaceAddr metric : Nat)
    (actionA actionR : Int) (hA : ifindexA ≠ 0) (hR : ifindexR ≠ 0) :
    (if_address ifindexA name address netmask broadcast actionA).sendAttempted = true ∧
    (if_route ifindexR destination netmaskR gateway ifaceAddr metric actionR).sendAttempted
      = true := by
  constructor
  · unfold if_address
    rw [if_neg hA]
    rfl
  · unfold if_route
    rw [if_neg hR]
    rfl

/-- C1 witness: the amended theorem applied at the failing-append call of
the counterexample and a route call with action -3. -/
theorem claim_c1_witness :
    (if_address 2 (List.replicate 60 97) 0 0 0 0).sendAttempted = true ∧
    (if_route 2 0 0 1 0 0 (-3)).sendAttempted = true :=
  claim_c1_amended 2 2 (List.replicate 60 97) 0 0 0 0 0 1 0 0 0 (-3)
    (by decide) (by decide)

/-- C4 counterexample: if_route with the negative action -3 builds a
request whose message type is RTM_DELROUTE but whose scope is
RT_SCOPE_UNIVERSE (not RT_SCOPE_NOWHERE), and which carries the unicast
route type RTN_UNICAST and the protocol tag RTPROT_BOOT - refuting the
claim for that negative action. -/
theorem claim_c4_counterexample :
    (if_route 2 0 0 1 0 0 (-3)).typeOf = some RTM_DELROUTE ∧
    (if_route 2 0 0 1 0 0 (-3)).rtOf =
      some { rtm_family := 2, rtm_dst_len := 0, rtm_table := 254,
             rtm_protocol := RTPROT_BOOT, rtm_scope := RT_SCOPE_UNIVERSE,
             rtm_type := RTN_UNICAST } := by
  exact ⟨by decide, by decide⟩

/-- C4 amended: every if_route call with a negative action builds a request
of the delete-route message type, but only the delete actions -1 and -2
get the full delete shape: "nowhere" scope, no unicast route type and no
protocol origin tag (both left at their zero UNSPEC values). -/
theorem claim_c4_amended (ifindex destination netmask gateway ifaceAddr metric : Nat)
    (action : Int) (hidx : ifindex ≠ 0) (hneg : action < 0) :
    (if_route ifindex destination netmask gateway ifaceAddr metric action).typeOf
      = some RTM_DELROUTE ∧
    (action = -1 ∨ action = -2 →
      (if_route ifindex destination netmask gateway ifaceAddr metric action).rtOf
        = some { rtm_family := AF_INET, rtm_dst_len := inet_ntocidr netmask,
                 rtm_table := RT_TABLE_MAIN, rtm_protocol := RTPROT_UNSPEC,
                 rtm_scope := RT_SCOPE_NOWHERE, rtm_type := RTN_UNSPEC }) := by
  have h0 : ¬ action = 0 := by omega
  have h1 : ¬ action = 1 := by omega
  constructor
  · unfold if_route
    rw [if_neg hidx]
    simp only [h0, if_false, h1]
    rfl
  · intro h2
    unfold if_route
    rw [if_neg hidx]
    simp only [h0, if_false, h1, if_pos h2]
    rfl

/-- C4 witness: the amended theorem applied at a delete call with
action -1. -/
theorem claim_c4_witness :
    (if_route 2 5 0 1 0 0 (-1)).typeOf = some RTM_DELROUTE ∧
    ((-1 : Int) = -1 ∨ (-1 : Int) = -2 →
      (if_route 2 5 0 1 0 0 (-1)).rtOf
        = some { rtm_family := AF_INET, rtm_dst_len := inet_ntocidr 0,
                 rtm_table := RT_TABLE_MAIN, rtm_protocol := RTPROT_UNSPEC,
                 rtm_scope := RT_SCOPE_NOWHERE, rtm_type := RTN_UNSPEC }) :=
  claim_c4_amended 2 5 0 1 0 0 (-1) (by decide) (by decide)

/-- C5 counterexample: the 32-bit sequence counter wraps: the transaction
after the one assigned sequence number 4294967295 is assigned 0, which is
not strictly greater. -/
theorem claim_c5_counterexample :
    send_netlink_seq 4294967294 = 4294967295 ∧
    send_netlink_seq (send_netlink_seq 4294967294) = 0 ∧
    ¬ send_netlink_seq 4294967294 < send_netlink_seq (send_netlink_seq 4294967294) := by
  refine ⟨by decide, by decide, by decide⟩

/-- C5 amended: the sequence number assigned by a send_netlink call is
strictly greater than the previously assigned one as long as the previous
value is below the 32-bit maximum 4294967295; at the maximum the counter
wraps to 0. -/
theorem claim_c5_amended (seq : Nat) (h : seq < 4294967295) :
    send_netlink_seq seq = seq + 1 ∧ seq < send_netlink_seq seq := by
  unfold send_netlink_seq
  have h1 : (seq + 1) % 4294967296 = seq + 1 := Nat.mod_eq_of_lt (by omega)
  rw [h1]
  omega

/-- C5 witness: the amended theorem applied at counter value 41. -/
theorem claim_c5_witness :
    send_netlink_seq 41 = 42 ∧ 41 < send_netlink_seq 41 :=
  claim_c5_amended 41 (by decide)

/-- The behaviour C6 ascribes to the acknowledgment decoder on a message m
whose header length satisfies the framing bound NLMSG_OK guarantees. -/
def ErrNetlinkSpec (m : ErrMsg) : Prop :=
  (m.nlmsg_type ≠ NLMSG_ERROR → err_netlink m = (0, none)) ∧
  (m.nlmsg_type = NLMSG_ERROR → m.nlmsg_len - 16 < 20 →
    err_netlink m = (-1, some (EBADMSG : Int))) ∧
  (m.nlmsg_type = NLMSG_ERROR → 20 ≤ m.nlmsg_len - 16 → m.errCode = 0 →
    err_netlink m = ((m.nlmsg_len : Int) - 16, none)) ∧
  (m.nlmsg_type = NLMSG_ERROR → 20 ≤ m.nlmsg_len - 16 → m.errCode ≠ 0 →
    err_netlink m = (-1, some (-m.errCode)))

/-- C6: the acknowledgment decoder returns Continue (0) for every message
that is not an error-type message; an error-type message whose payload is
shorter than struct nlmsgerr fails with EBADMSG; error code 0 signals
success and returns the payload length; a nonzero code (for example -13)
sets errno to the negated code and signals failure.  The length hypotheses
are the NLMSG_OK framing guarantee for a message delivered by the pump. -/
theorem claim_c6 (m : ErrMsg) (h16 : 16 ≤ m.nlmsg_len)
    (hlt : m.nlmsg_len < 2147483648) : ErrNetlinkSpec m := by
  have hval : payloadLenC m.nlmsg_len = (m.nlmsg_len : Int) - 16 :=
    payloadLenC_eq _ h16 hlt
  have key : sizeTCast (payloadLenC m.nlmsg_len) = m.nlmsg_len - 16 := by
    rw [hval]
    exact sizeTCast_sub16 _ h16 hlt
  refine ⟨?_, ?_, ?_, ?_⟩
  · intro h
    simp [err_netlink, h]
  · intro h hshort
    simp [err_netlink, h, key, hshort]
  · intro h hlong hzero
    have hnot : ¬ (m.nlmsg_len - 16 < 20) := by omega
    have key2 : sizeTCast ((m.nlmsg_len : Int) - 16) = m.nlmsg_len - 16 :=
      sizeTCast_sub16 _ h16 hlt
    simp [err_netlink, h, key, key2, hnot, hzero, hval]
  · intro h hlong hnz
    have hnot : ¬ (m.nlmsg_len - 16 < 20) := by omega
    simp [err_netlink, h, key, hnot, hnz]

/-- C6 witness: the theorem applied at a concrete permission-denied
acknowledgment (error code -13, header length 36). -/
theorem claim_c6_witness : ErrNetlinkSpec { nlmsg_type := 2, nlmsg_len := 36, errCode := -13 } :=
  claim_c6 { nlmsg_type := 2, nlmsg_len := 36, errCode := -13 } (by decide) (by decide)

lemma scanAttrs_wireless : ∀ (attrs : List RtAttr) (acc : List Nat),
    (∃ a ∈ attrs, a.rta_type = IFLA_WIRELESS) →
    scanAttrs RTM_NEWLINK 0 attrs acc = none := by
  intro attrs
  induction attrs with
  | nil =>
    rintro acc ⟨a, ha, _⟩
    simp at ha
  | cons b tl ih =>
    rintro acc ⟨a, ha, hw⟩
    by_cases hb : b.rta_type = IFLA_WIRELESS
    · simp [scanAttrs, hb]
    · rcases List.mem_cons.mp ha with rfl | hatl
      · exact absurd hw hb
      · by_cases hn : b.rta_type = IFLA_IFNAME
        · simp only [scanAttrs]
          rw [if_neg hb, if_pos hn]
          exact ih _ ⟨a, hatl, hw⟩
        · simp only [scanAttrs]
          rw [if_neg hb, if_neg hn]
          exact ih _ ⟨a, hatl, hw⟩

lemma scanAttrs_no_name (t c : Nat) : ∀ (attrs : List RtAttr) (acc : List Nat),
    (∀ a ∈ attrs, a.rta_type ≠ IFLA_IFNAME) →
    scanAttrs t c attrs acc = none ∨ scanAttrs t c attrs acc = some acc := by
  intro attrs
  induction attrs with
  | nil =>
    intro acc _
    right
    rfl
  | cons b tl ih =>
    intro acc hall
    have hb : b.rta_type ≠ IFLA_IFNAME := hall b (by simp)
    have htl := ih acc (fun a ha => hall a (by simp [ha]))
    by_cases hw : b.rta_type = IFLA_WIRELESS
    · by_cases hcond : t = RTM_NEWLINK ∧ c = 0
      · left
        simp [scanAttrs, hw, hcond]
      · simpa [scanAttrs, hw, hcond] using htl
    · simpa [scanAttrs, hw, hb] using htl

/-- The behaviour C3 ascribes to the link classifier on a message passing
the filters with captured interface name ifn: all-bits change mask yields
exactly one Added dispatch, any other mask exactly one
CarrierOrFlagsChanged dispatch, link-removed exactly one Removed dispatch,
each to its own registered listener and to no other. -/
def LinkClassSpec (ls : Listeners) (m : LinkMsg) (ifn : List Nat) : Prop :=
  (m.nlmsg_type = RTM_NEWLINK → m.ifi.ifi_change = 4294967295 → ls.hasAdd = true →
    link_netlink ls m = (1, [LinkEvent.added ifn])) ∧
  (m.nlmsg_type = RTM_NEWLINK → m.ifi.ifi_change ≠ 4294967295 → ls.hasCarrier = true →
    link_netlink ls m = (1, [LinkEvent.carrier ifn])) ∧
  (m.nlmsg_type = RTM_DELLINK → ls.hasRemove = true →
    link_netlink ls m = (1, [LinkEvent.removed ifn]))

lemma link_classify (ls : Listeners) (m : LinkMsg) (ifn : List Nat)
    (hlen : 32 ≤ m.nlmsg_len) (hbound : m.nlmsg_len < 2147483648)
    (hloop : m.ifi.ifi_flags &&& IFF_LOOPBACK = 0)
    (hscan : scanAttrs m.nlmsg_type m.ifi.ifi_change m.attrs [] = some ifn) :
    LinkClassSpec ls m ifn := by
  have hsz : sizeTCast (payloadLenC m.nlmsg_len) = m.nlmsg_len - 16 := by
    rw [payloadLenC_eq _ (by omega) hbound]
    exact sizeTCast_sub16 _ (by omega) hbound
  have hnl : ¬ (m.nlmsg_len - 16 < 16) := by omega
  have hne : RTM_DELLINK = RTM_NEWLINK → False := by decide
  refine ⟨?_, ?_, ?_⟩
  · intro ht hch hadd
    rw [ht, hch] at hscan
    simp [link_netlink, hsz, hnl, hloop, hscan, ht, hch, hadd]
  · intro ht hch hcar
    rw [ht] at hscan
    simp [link_netlink, hsz, hnl, hloop, hscan, ht, hch, hcar]
  · intro ht hrem
    rw [ht] at hscan
    simp [link_netlink, hsz, hnl, hloop, hscan, ht, hrem]
    exact fun hEq => absurd hEq hne

/-- C3: for every link message passing the loopback and wireless-noise
filters with captured name ifn: a link-added message with all change-mask
bits set is dispatched exactly once, as Added(ifn), to the added listener;
with any other mask exactly once, as CarrierOrFlagsChanged(ifn), to the
carrier listener; a link-removed message exactly once, as Removed(ifn), to
the removed listener; in each case no other listener is invoked. -/
theorem claim_c3 (ls : Listeners) (m : LinkMsg) (ifn : List Nat)
    (hlen : 32 ≤ m.nlmsg_len) (hbound : m.nlmsg_len < 2147483648)
    (hloop : m.ifi.ifi_flags &&& IFF_LOOPBACK = 0)
    (hscan : scanAttrs m.nlmsg_type m.ifi.ifi_change m.attrs [] = some ifn) :
    LinkClassSpec ls m ifn :=
  link_classify ls m ifn hlen hbound hloop hscan

/-- C3 witness: the theorem applied at a link-added message with name
attribute "eth0" (bytes 101,116,104,48) and all change-mask bits set, with
all three listeners registered. -/
theorem claim_c3_witness :
    LinkClassSpec { hasCarrier := true, hasAdd := true, hasRemove := true }
      { nlmsg_type := 16, nlmsg_len := 48, ifi := { ifi_flags := 0, ifi_change := 4294967295 },
        attrs := [{ rta_type := 3, rta_data := [101, 116, 104, 48, 0] }] }
      [101, 116, 104, 48] :=
  claim_c3 { hasCarrier := true, hasAdd := true, hasRemove := true }
    { nlmsg_type := 16, nlmsg_len := 48, ifi := { ifi_flags := 0, ifi_change := 4294967295 },
      attrs := [{ rta_type := 3, rta_data := [101, 116, 104, 48, 0] }] }
    [101, 116, 104, 48] (by decide) (by decide) (by decide) (by decide)

/-- The behaviour C8 ascribes to the two filters: a loopback link message,
and a link-added message with a wireless-extension attribute and zero
change mask, are each consumed with result 1 (success) and no dispatch. -/
def LinkFilterSpec (ls : Listeners) (m : LinkMsg) : Prop :=
  ((m.nlmsg_type = RTM_NEWLINK ∨ m.nlmsg_type = RTM_DELLINK) →
    m.ifi.ifi_flags &&& IFF_LOOPBACK ≠ 0 → link_netlink ls m = (1, [])) ∧
  (m.nlmsg_type = RTM_NEWLINK → m.ifi.ifi_change = 0 →
    (∃ a ∈ m.attrs, a.rta_type = IFLA_WIRELESS) → link_netlink ls m = (1, []))

/-- C8: a link message whose interface flags include the loopback bit, and
a link-added message carrying a wireless-extension attribute whose
change-mask field is zero, are each consumed as a successful no-op: no
listener callback is dispatched and no error is reported. -/
theorem claim_c8 (ls : Listeners) (m : LinkMsg)
    (hlen : 32 ≤ m.nlmsg_len) (hbound : m.nlmsg_len < 2147483648) :
    LinkFilterSpec ls m := by
  have hsz : sizeTCast (payloadLenC m.nlmsg_len) = m.nlmsg_len - 16 := by
    rw [payloadLenC_eq _ (by omega) hbound]
    exact sizeTCast_sub16 _ (by omega) hbound
  have hnl : ¬ (m.nlmsg_len - 16 < 16) := by omega
  refine ⟨?_, ?_⟩
  · rintro (ht | ht) hl <;> simp [link_netlink, hsz, hnl, ht, hl]
  · intro ht hch hex
    have hnone : scanAttrs RTM_NEWLINK 0 m.attrs [] = none :=
      scanAttrs_wireless m.attrs [] hex
    by_cases hl : m.ifi.ifi_flags &&& IFF_LOOPBACK ≠ 0
    · simp [link_netlink, hsz, hnl, ht, hl]
    · have hl0 : m.ifi.ifi_flags &&& IFF_LOOPBACK = 0 := by omega
      simp [link_netlink, hsz, hnl, ht, hch, hl0, hnone]

/-- C8 witness: the theorem applied at a loopback link-added message with
zero change mask that also carries a wireless-extension attribute, so both
filter conjuncts fire. -/
theorem claim_c8_witness :
    LinkFilterSpec { hasCarrier := true, hasAdd := true, hasRemove := true }
      { nlmsg_type := 16, nlmsg_len := 48, ifi := { ifi_flags := 8, ifi_change := 0 },
        attrs := [{ rta_type := 11, rta_data := [] }] } :=
  claim_c8 { hasCarrier := true, hasAdd := true, hasRemove := true }
    { nlmsg_type := 16, nlmsg_len := 48, ifi := { ifi_flags := 8, ifi_change := 0 },
      attrs := [{ rta_type := 11, rta_data := [] }] } (by decide) (by decide)

/-- C10: a link message that passes the loopback and wireless-noise filters
but carries no interface-name attribute is still dispatched to its
classified listener, with the empty byte string as the interface name. -/
theorem claim_c10 (ls : Listeners) (m : LinkMsg)
    (hlen : 32 ≤ m.nlmsg_len) (hbound : m.nlmsg_len < 2147483648)
    (hloop : m.ifi.ifi_flags &&& IFF_LOOPBACK = 0)
    (hnoname : ∀ a ∈ m.attrs, a.rta_type ≠ IFLA_IFNAME)
    (hpass : scanAttrs m.nlmsg_type m.ifi.ifi_change m.attrs [] ≠ none) :
    LinkClassSpec ls m [] := by
  have hscan : scanAttrs m.nlmsg_type m.ifi.ifi_change m.attrs [] = some [] := by
    rcases scanAttrs_no_name m.nlmsg_type m.ifi.ifi_change m.attrs [] hnoname with h | h
    · exact absurd h hpass
    · exact h
  exact link_classify ls m [] hlen hbound hloop hscan

/-- C10 witness: the theorem applied at a link-added message with all
change-mask bits set and no attributes at all: the added listener receives
the empty name. -/
theorem claim_c10_witness :
    LinkClassSpec { hasCarrier := true, hasAdd := true, hasRemove := true }
      { nlmsg_type := 16, nlmsg_len := 48, ifi := { ifi_flags := 0, ifi_change := 4294967295 },
        attrs := [] } [] :=
  claim_c10 { hasCarrier := true, hasAdd := true, hasRemove := true }
    { nlmsg_type := 16, nlmsg_len := 48, ifi := { ifi_flags := 0, ifi_change := 4294967295 },
      attrs := [] } (by decide) (by decide) (by decide) (by decide) (by decide)

/-- A listener record with all three callbacks registered. -/
def allListeners : Listeners :=
  { hasCarrier := true, hasAdd := true, hasRemove := true }

/-- A sample non-link message (type 0), which the link handler ignores. -/
def sampleOther : LinkMsg :=
  { nlmsg_type := 0, nlmsg_len := 32, ifi := { ifi_flags := 0, ifi_change := 0 },
    attrs := [] }

/-- A sample link-added message for interface "eth0" with every
change-mask bit set. -/
def sampleEth : LinkMsg :=
  { nlmsg_type := 16, nlmsg_len := 48, ifi := { ifi_flags := 0, ifi_change := 4294967295 },
    attrs := [{ rta_type := 3, rta_data := [101, 116, 104, 48, 0] }] }

/-- A sample link-removed message for interface "wlan0". -/
def sampleDel : LinkMsg :=
  { nlmsg_type := 17, nlmsg_len := 48, ifi := { ifi_flags := 0, ifi_change := 0 },
    attrs := [{ rta_type := 3, rta_data := [119, 108, 97, 110, 48, 0] }] }

lemma link_nonlink (ls : Listeners) (p : LinkMsg)
    (h1 : p.nlmsg_type ≠ RTM_NEWLINK) (h2 : p.nlmsg_type ≠ RTM_DELLINK) :
    link_netlink ls p = (0, []) := by
  unfold link_netlink
  rw [if_pos ⟨h1, h2⟩]

lemma link_code_ne_zero (ls : Listeners) (m : LinkMsg)
    (h : m.nlmsg_type = RTM_NEWLINK ∨ m.nlmsg_type = RTM_DELLINK) :
    (link_netlink ls m).1 ≠ 0 := by
  unfold link_netlink
  rw [if_neg (by rcases h with h | h <;> simp [h])]
  repeat' split
  all_goals simp

lemma link_code_zero (ls : Listeners) (m : LinkMsg)
    (h : (link_netlink ls m).1 = 0) : link_netlink ls m = (0, []) := by
  by_cases ht : m.nlmsg_type = RTM_NEWLINK ∨ m.nlmsg_type = RTM_DELLINK
  · exact absurd h (link_code_ne_zero ls m ht)
  · push_neg at ht
    exact link_nonlink ls m ht.1 ht.2

lemma link_events_le_one (ls : Listeners) (m : LinkMsg) :
    (link_netlink ls m).2.length ≤ 1 := by
  unfold link_netlink
  repeat' split
  all_goals simp

lemma runMsgs_first_stop {α ε : Type} (cb : α → Int × List ε) (m : α) (post : List α)
    (hm : (cb m).1 ≠ 0) :
    ∀ (pre : List α), (∀ p ∈ pre, cb p = (0, [])) → ∀ r,
      runMsgs cb r (pre ++ m :: post)
        = { code := (cb m).1, events := (cb m).2, stopped := true } := by
  intro pre
  induction pre with
  | nil =>
    intro _ r
    simp [runMsgs, hm]
  | cons q pre ih =>
    intro hpre r
    have hq : cb q = (0, []) := hpre q (by simp)
    have ih2 := ih (fun p hp => hpre p (by simp [hp])) 0
    simp [runMsgs, hq, ih2]

lemma runMsgs_all_zero {α ε : Type} (cb : α → Int × List ε) :
    ∀ (ms : List α), (∀ m ∈ ms, cb m = (0, [])) → ms ≠ [] → ∀ r,
      runMsgs cb r ms = { code := 0, events := [], stopped := false } := by
  intro ms
  induction ms with
  | nil =>
    intro _ h
    exact absurd rfl h
  | cons m tl ih =>
    intro hall _ r
    have hm : cb m = (0, []) := hall m (by simp)
    by_cases htl : tl = []
    · subst htl
      simp [runMsgs, hm]
    · have ih2 := ih (fun p hp => hall p (by simp [hp])) htl 0
      simp [runMsgs, hm, ih2]

lemma runMsgs_link (ls : Listeners) : ∀ (ms : List LinkMsg) (r : Int),
    (runMsgs (link_netlink ls) r ms).events.length ≤ 1 ∧
    ((runMsgs (link_netlink ls) r ms).stopped = false →
      (runMsgs (link_netlink ls) r ms).events = []) := by
  intro ms
  induction ms with
  | nil =>
    intro r
    constructor
    · simp [runMsgs]
    · intro _
      simp [runMsgs]
  | cons m tl ih =>
    intro r
    by_cases hm : (link_netlink ls m).1 = 0
    · have hz := link_code_zero ls m hm
      have ih2 := ih 0
      constructor
      · simpa [runMsgs, hz] using ih2.1
      · intro hst
        simp [runMsgs, hz] at hst ⊢
        exact ih2.2 hst
    · constructor
      · simpa [runMsgs, hm] using link_events_le_one ls m
      · intro hst
        simp [runMsgs, hm] at hst

lemma get_netlink_fail_other {α ε : Type} (cb : α → Int × List ε) (r : Int) (e : Nat)
    (rest : List (Recv α)) (h1 : e ≠ EAGAIN) (h2 : e ≠ EINTR) :
    get_netlink cb r (Recv.fail e :: rest) = some (r, []) := by
  simp [get_netlink, h1, h2]

lemma get_netlink_link_le_one (ls : Listeners) : ∀ (trace : List (Recv LinkMsg)) (r : Int)
    (res : Int × List LinkEvent),
    get_netlink (link_netlink ls) r trace = some res → res.2.length ≤ 1 := by
  intro trace
  induction trace with
  | nil =>
    intro r res h
    simp [get_netlink] at h
  | cons hd tl ih =>
    intro r res h
    cases hd with
    | fail e =>
      by_cases h1 : e = EAGAIN
      · rw [show get_netlink (link_netlink ls) r (Recv.fail e :: tl) = some (0, []) from
          by simp [get_netlink, h1]] at h
        rw [← Option.some.inj h]
        decide
      · by_cases h2 : e = EINTR
        · rw [show get_netlink (link_netlink ls) r (Recv.fail e :: tl)
              = get_netlink (link_netlink ls) r tl from
              by simp [get_netlink, h1, h2, (by decide : ¬ EINTR = EAGAIN)]] at h
          exact ih r res h
        · rw [get_netlink_fail_other _ _ _ _ h1 h2] at h
          rw [← Option.some.inj h]
          simp
    | msgs ms =>
      have hrm := runMsgs_link ls ms r
      by_cases hstop : (runMsgs (link_netlink ls) r ms).stopped = true
      · rw [show get_netlink (link_netlink ls) r (Recv.msgs ms :: tl)
            = some ((runMsgs (link_netlink ls) r ms).code,
                    (runMsgs (link_netlink ls) r ms).events) from
            by simp [get_netlink, hstop]] at h
        rw [← Option.some.inj h]
        exact hrm.1
      · have hsf : (runMsgs (link_netlink ls) r ms).stopped = false := by
          simpa using hstop
        have hev : (runMsgs (link_netlink ls) r ms).events = [] := hrm.2 hsf
        cases hrec : get_netlink (link_netlink ls) (runMsgs (link_netlink ls) r ms).code tl with
        | none =>
          rw [show get_netlink (link_netlink ls) r (Recv.msgs ms :: tl) = none from
            by simp [get_netlink, hsf, hrec]] at h
          cases h
        | some p =>
          rw [show get_netlink (link_netlink ls) r (Recv.msgs ms :: tl)
              = some (p.1, (runMsgs (link_netlink ls) r ms).events ++ p.2) from
              by simp [get_netlink, hsf, hrec]] at h
          rw [hev] at h
          rw [← Option.some.inj h]
          simpa using ih _ p hrec

/-- C2 counterexample: with one successfully processed (non-link) message
in the run, a subsequent hard receive failure (errno 111) makes the pump
return the success result some (0, []) instead of surfacing an error,
whereas the same failure with no processed message returns the error -1;
so the outcome is not an error result "regardless of how many messages
were already processed". -/
theorem claim_c2_counterexample :
    manage_link allListeners [Recv.msgs [sampleOther], Recv.fail 111] = some (0, []) ∧
    manage_link allListeners [Recv.fail 111] = some (-1, []) := by
  exact ⟨by decide, by decide⟩

/-- C2 amended: EAGAIN ends the pumping cycle with success (0); EINTR
retries the receive; any other receive failure aborts the pump but returns
the current result value r - the initial -1 only when no callback has run,
and 0 (success) once messages have been processed in the run, as the last
conjunct shows for a datagram of continue-messages preceding the failure. -/
theorem claim_c2_amended {α ε : Type} (cb : α → Int × List ε) (r : Int)
    (rest : List (Recv α)) :
    get_netlink cb r (Recv.fail EAGAIN :: rest) = some (0, []) ∧
    get_netlink cb r (Recv.fail EINTR :: rest) = get_netlink cb r rest ∧
    (∀ e, e ≠ EAGAIN → e ≠ EINTR →
      get_netlink cb r (Recv.fail e :: rest) = some (r, [])) ∧
    (∀ e ms, e ≠ EAGAIN → e ≠ EINTR → ms ≠ [] → (∀ m ∈ ms, cb m = (0, [])) →
      get_netlink cb r (Recv.msgs ms :: Recv.fail e :: rest) = some (0, [])) := by
  refine ⟨?_, ?_, ?_, ?_⟩
  · simp [get_netlink]
  · simp [get_netlink, (by decide : ¬ EINTR = EAGAIN)]
  · intro e h1 h2
    exact get_netlink_fail_other cb r e rest h1 h2
  · intro e ms h1 h2 hne hall
    have hrun := runMsgs_all_zero cb ms hall hne r
    simp [get_netlink, hrun, h1, h2]

/-- C2 witness: the amended theorem applied with the link handler, initial
r = -1 and the hard failure errno 111: the pump surfaces -1 because no
message was processed. -/
theorem claim_c2_witness :
    get_netlink (link_netlink allListeners) (-1) [Recv.fail 111] = some (-1, []) :=
  (claim_c2_amended (link_netlink allListeners) (-1) []).2.2.1 111
    (by decide) (by decide)

/-- C9: a manage_link run stops at the first link-added/link-removed
message of the datagram: the pump returns that message's handler result at
once and the remaining messages of the datagram (and any further receive
results) are never processed; consequently any manage_link run dispatches
at most one listener event. -/
theorem claim_c9 (ls : Listeners) (pre : List LinkMsg) (m : LinkMsg)
    (post : List LinkMsg) (rest : List (Recv LinkMsg))
    (hpre : ∀ p ∈ pre, p.nlmsg_type ≠ RTM_NEWLINK ∧ p.nlmsg_type ≠ RTM_DELLINK)
    (hm : m.nlmsg_type = RTM_NEWLINK ∨ m.nlmsg_type = RTM_DELLINK) :
    manage_link ls (Recv.msgs (pre ++ m :: post) :: rest)
      = some ((link_netlink ls m).1, (link_netlink ls m).2) ∧
    (∀ trace res, manage_link ls trace = some res → res.2.length ≤ 1) := by
  constructor
  · have hpre0 : ∀ p ∈ pre, link_netlink ls p = (0, []) := fun p hp =>
      link_nonlink ls p (hpre p hp).1 (hpre p hp).2
    have hm0 : (link_netlink ls m).1 ≠ 0 := link_code_ne_zero ls m hm
    have hrun := runMsgs_first_stop (link_netlink ls) m post hm0 pre hpre0 (-1)
    unfold manage_link
    simp [get_netlink, hrun]
  · intro trace res h
    exact get_netlink_link_le_one ls trace (-1) res h

/-- C9 witness: the theorem applied at a datagram holding a non-link
message, then the eth0 link-added message, then a further link-removed
message, followed by a trailing receive failure: the run returns the eth0
result and the trailing content is discarded; the at-most-one-dispatch
bound is exercised on the single-message run. -/
theorem claim_c9_witness :
    manage_link allListeners
        (Recv.msgs ([sampleOther] ++ sampleEth :: [sampleDel]) :: [Recv.fail 111])
      = some ((link_netlink allListeners sampleEth).1,
              (link_netlink allListeners sampleEth).2) ∧
    ((1 : Int), [LinkEvent.added [101, 116, 104, 48]]).2.length ≤ 1 :=
  ⟨(claim_c9 allListeners [sampleOther] sampleEth [sampleDel] [Recv.fail 111]
      (by decide) (by decide)).1,
   (claim_c9 allListeners [sampleOther] sampleEth [sampleDel] [Recv.fail 111]
      (by decide) (by decide)).2
     [Recv.msgs [sampleEth]] (1, [LinkEvent.added [101, 116, 104, 48]]) (by decide)⟩

end IfLinux
